import Mathlib

/-!
Formal model of the bird-jump game simulation in `src/BirdGame.py`.

Python floats are modelled as rationals (ℚ), Python ints as ℤ.  External,
non-deterministic inputs of a tick are collected in an `Env` record:
`logf` models `math.log`, `bob` models the value of
`math.sin(time.time()*4.0 + x)` for a given `x`, `burst` models the list of
random particles appended by `Game.spawn_particles`, the `pipeTop`,
`pipeColor`, `puSpawn`, `puOff`, `puFrac`, `puType` fields model the random
draws of `Game.spawn_pipe`, and `saveOk` tells whether the best-effort file
write in `save_highscore` succeeds.  Given a fixed `Env`, every function
below is a pure function of the previous state and `dt`, mirroring the
source line by line.
-/

namespace BirdGame

/-- Window width, `WIDTH = 480` in `src/BirdGame.py`. -/
def WIDTH : ℤ := 480

/-- Window height, `HEIGHT = 720`. -/
def HEIGHT : ℤ := 720

/-- Fixed horizontal lane of the bird, `BIRD_X = 120`. -/
def BIRD_X : ℚ := 120

/-- Bird collision radius, `BIRD_RADIUS = 18`. -/
def BIRD_RADIUS : ℚ := 18

/-- Gravity in px/s², `GRAVITY = 1000.0`. -/
def GRAVITY : ℚ := 1000

/-- Upward velocity applied by a flap, `JUMP_VELOCITY = -380.0`. -/
def JUMP_VELOCITY : ℚ := -380

/-- Fall speed clamp, `MAX_FALL_SPEED = 800.0`. -/
def MAX_FALL_SPEED : ℚ := 800

/-- Pipe width in px, `PIPE_WIDTH = 88`. -/
def PIPE_WIDTH : ℤ := 88

/-- Vertical gap between the pipe halves, `PIPE_GAP = 190`. -/
def PIPE_GAP : ℤ := 190

/-- Minimal top-pipe height, `PIPE_MIN_TOP = 90`. -/
def PIPE_MIN_TOP : ℤ := 90

/-- Base pipe speed in px/s, `PIPE_SPEED_BASE = 180.0`. -/
def PIPE_SPEED_BASE : ℚ := 180

/-- Base seconds between pipe spawns, `PIPE_SPAWN_INTERVAL = 1.6`. -/
def PIPE_SPAWN_INTERVAL : ℚ := 1.6

/-- Power-up pickup radius, `POWERUP_RADIUS = 12`. -/
def POWERUP_RADIUS : ℤ := 12

/-- Seconds a collected power-up effect lasts, `POWERUP_DURATION = 4.0`. -/
def POWERUP_DURATION : ℚ := 4

/-- Starting number of lives, `START_LIVES = 3`. -/
def START_LIVES : ℤ := 3

/-- Invulnerability window after losing a life, `INVULNERABILITY_AFTER_HIT = 1.6`. -/
def INVULNERABILITY_AFTER_HIT : ℚ := 1.6

/-- An RGB color triple; cosmetic data carried along faithfully. -/
abbrev Color := ℤ × ℤ × ℤ

/-- The `clamp(v, a, b)` helper: `max(a, min(b, v))`. -/
def clamp (v a b : ℚ) : ℚ := max a (min b v)

/-- Python `int()` truncation toward zero, applied by `pygame.Rect` to the
float pipe coordinate. -/
def pyInt (q : ℚ) : ℤ := if 0 ≤ q then ⌊q⌋ else -⌊-q⌋

/-- An axis-aligned rectangle in the style of `pygame.Rect`. -/
structure Rect where
  left : ℤ
  top : ℤ
  w : ℤ
  h : ℤ
deriving DecidableEq

/-- Right edge of a rect. -/
def Rect.right (r : Rect) : ℤ := r.left + r.w

/-- Bottom edge of a rect. -/
def Rect.bottom (r : Rect) : ℤ := r.top + r.h

/-- The `circle_rect_collision` helper: squared distance from the circle
center to the closest point of the rectangle is at most radius². -/
def circle_rect_collision (cx cy cr : ℚ) (r : Rect) : Bool :=
  let closestX := clamp cx (r.left : ℚ) (r.right : ℚ)
  let closestY := clamp cy (r.top : ℚ) (r.bottom : ℚ)
  let dx := cx - closestX
  let dy := cy - closestY
  decide (dx * dx + dy * dy ≤ cr * cr)

/-- The bird (class `Bird`): float position and vertical velocity, constant
radius, alive flag and cosmetic flap-animation phase. -/
structure Bird where
  x : ℚ
  y : ℚ
  vel : ℚ
  radius : ℚ
  alive : Bool
  flap_phase : ℚ
deriving DecidableEq

/-- `Bird.__init__(x, y)`. -/
def Bird.init (x y : ℚ) : Bird :=
  ⟨x, y, 0, BIRD_RADIUS, true, 0⟩

/-- `Bird.flap`: unconditionally sets the velocity to `JUMP_VELOCITY` and
nudges the wing animation. -/
def Bird.flap (b : Bird) : Bird :=
  {b with vel := JUMP_VELOCITY, flap_phase := 0.4}

/-- `Bird.update(dt)`: integrate gravity, clamp the velocity to
`[-1000, MAX_FALL_SPEED]`, move vertically, decay the flap animation. -/
def Bird.update (b : Bird) (dt : ℚ) : Bird :=
  let v := clamp (b.vel + GRAVITY * dt) (-1000) MAX_FALL_SPEED
  {b with vel := v, y := b.y + v * dt, flap_phase := max 0 (b.flap_phase - dt * 3)}

/-- `Bird.get_circle`. -/
def Bird.get_circle (b : Bird) : ℚ × ℚ × ℚ := (b.x, b.y, b.radius)

/-- A pipe pair (class `Pipe`): float x, integer top height, gap, width,
palette color and the scoring flag `passed`. -/
structure Pipe where
  x : ℚ
  top : ℤ
  gap : ℤ
  width : ℤ
  color : Color
  passed : Bool
deriving DecidableEq

/-- `Pipe.update(dt, speed)`: move left by `speed * dt`. -/
def Pipe.update (p : Pipe) (dt speed : ℚ) : Pipe :=
  {p with x := p.x - speed * dt}

/-- Top rectangle of a pipe, `pygame.Rect(int(x), 0, width, int(top))`. -/
def Pipe.top_rect (p : Pipe) : Rect :=
  ⟨pyInt p.x, 0, p.width, p.top⟩

/-- Bottom rectangle of a pipe,
`pygame.Rect(int(x), int(top+gap), width, int(HEIGHT-(top+gap)))`. -/
def Pipe.bottom_rect (p : Pipe) : Rect :=
  ⟨pyInt p.x, p.top + p.gap, p.width, HEIGHT - (p.top + p.gap)⟩

/-- `Pipe.collides_with_circle`: circle versus the two rectangles. -/
def Pipe.collides_with_circle (p : Pipe) (c : ℚ × ℚ × ℚ) : Bool :=
  circle_rect_collision c.1 c.2.1 c.2.2 p.top_rect ||
  circle_rect_collision c.1 c.2.1 c.2.2 p.bottom_rect

/-- `Pipe.off_screen`: fully off the left edge, `x + width < -40`. -/
def Pipe.off_screen (p : Pipe) : Bool :=
  decide (p.x + (p.width : ℚ) < -40)

/-- The three power-up kinds of `POWERUP_TYPES`. -/
inductive PType where
  | shield
  | slow
  | score
deriving DecidableEq

/-- The `POWERUP_COLORS` table. -/
def powerup_color : PType → Color
  | PType.shield => (255, 215, 0)
  | PType.slow => (102, 204, 255)
  | PType.score => (255, 102, 178)

/-- A floating power-up pickup (class `PowerUp`). -/
structure PowerUp where
  x : ℚ
  y : ℚ
  ptype : PType
  radius : ℤ
  collected : Bool
deriving DecidableEq

/-- `PowerUp.update(dt, speed)`: drift left with the pipes and bob
vertically by `sin(time.time()*4 + x) * 8 * dt`; `bob` supplies the sine
value at the updated x. -/
def PowerUp.update (pu : PowerUp) (dt speed : ℚ) (bob : ℚ → ℚ) : PowerUp :=
  let x' := pu.x - speed * dt
  {pu with x := x', y := pu.y + bob x' * 8 * dt}

/-- `PowerUp.collides_with_circle`: circle versus circle with radius sum. -/
def PowerUp.collides_with_circle (pu : PowerUp) (c : ℚ × ℚ × ℚ) : Bool :=
  let dx := c.1 - pu.x
  let dy := c.2.1 - pu.y
  decide (dx * dx + dy * dy ≤ (c.2.2 + (pu.radius : ℚ)) ^ 2)

/-- A cosmetic particle (class `Particle`). -/
structure Particle where
  x : ℚ
  y : ℚ
  vx : ℚ
  vy : ℚ
  color : Color
  life : ℚ
  max_life : ℚ
deriving DecidableEq

/-- `Particle.update(dt)`: gravity on `vy`, drift, life decay. -/
def Particle.update (pt : Particle) (dt : ℚ) : Particle :=
  let vy' := pt.vy + 300 * dt
  {pt with vy := vy', x := pt.x + pt.vx * dt, y := pt.y + vy' * dt, life := pt.life - dt}

/-- The `powerup_timers` dict restricted to its closed key set
{"shield", "slow", "score"}: a present entry is `some duration`. -/
structure Timers where
  shield : Option ℚ
  slow : Option ℚ
  score : Option ℚ
deriving DecidableEq

/-- `powerup_timers.get(key, 0.0)`. -/
def timers_get (o : Option ℚ) : ℚ := o.getD 0

/-- `Game.apply_powerup`: set the matching timer to `POWERUP_DURATION`. -/
def apply_powerup (t : PType) (tm : Timers) : Timers :=
  match t with
  | PType.shield => {tm with shield := some POWERUP_DURATION}
  | PType.slow => {tm with slow := some POWERUP_DURATION}
  | PType.score => {tm with score := some POWERUP_DURATION}

/-- Per-entry step of the timer-decrement loop in `Game.update`:
`t -= dt`, delete the entry when it drops to `<= 0`. -/
def dec_entry (dt : ℚ) (o : Option ℚ) : Option ℚ :=
  match o with
  | none => none
  | some t => if t - dt ≤ 0 then none else some (t - dt)

/-- The timer-decrement loop of `Game.update` over the whole dict. -/
def Timers.dec (tm : Timers) (dt : ℚ) : Timers :=
  ⟨dec_entry dt tm.shield, dec_entry dt tm.slow, dec_entry dt tm.score⟩

/-- The four values of `Game.state`. -/
inductive Mode where
  | menu
  | playing
  | paused
  | gameOver
deriving DecidableEq

/-- A parallax background cloud (one dict of `Game.clouds`). -/
structure Cloud where
  x : ℚ
  y : ℚ
  r : ℚ
  speed : ℚ
deriving DecidableEq

/-- Cloud motion performed by `Game.update` in non-PLAYING states. -/
def Cloud.move (c : Cloud) (dt : ℚ) : Cloud :=
  let x' := c.x - c.speed * dt * 0.25
  if x' < -80 then {c with x := (WIDTH : ℚ) + 60} else {c with x := x'}

/-- The random particle burst appended by `Game.spawn_particles` at a given
position, color and count. -/
abbrev BurstFn := ℚ → ℚ → Color → ℕ → List Particle

/-- External inputs of one tick, see the module docstring. -/
structure Env where
  logf : ℚ → ℚ
  bob : ℚ → ℚ
  burst : BurstFn
  pipeTop : ℤ
  pipeColor : Color
  puSpawn : Bool
  puOff : ℤ
  puFrac : ℚ
  puType : PType
  saveOk : Bool

/-- The mutable state of class `Game` that the simulation reads or writes
(rendering-only fields such as fonts are omitted; `disk` models the
contents of the high-score file, `none` when the file is missing). -/
structure GState where
  bird : Bird
  pipes : List Pipe
  powerups : List PowerUp
  particles : List Particle
  score : ℤ
  lives : ℤ
  invulnerable_timer : ℚ
  powerup_timers : Timers
  pipe_speed : ℚ
  pipe_spawn_interval : ℚ
  time_since_last_pipe : ℚ
  state : Mode
  menu_select : ℕ
  high_score : ℤ
  sound_on : Bool
  clouds : List Cloud
  disk : Option String
deriving DecidableEq

/-- Decimal-digit run evaluated to a number; `none` when empty or when a
non-digit occurs. -/
def digitsVal : List Char → Option ℕ
  | [] => none
  | cs =>
    if cs.all (fun c => c.isDigit) then
      some (cs.foldl (fun a c => a * 10 + (c.toNat - 48)) 0)
    else none

/-- ASCII whitespace stripped by Python `str.strip()`. -/
def isPySpace (c : Char) : Bool :=
  c = ' ' || c = '\t' || c = '\n' || c = '\r' || c = '\x0b' || c = '\x0c'

/-- Python `str.strip()` on the character list of the file contents. -/
def pyStrip (cs : List Char) : List Char :=
  ((cs.dropWhile isPySpace).reverse.dropWhile isPySpace).reverse

/-- Model of Python `int(t)` on an already-stripped character list `t`: an
optional sign followed by decimal digits (digit-group underscores and
non-ASCII digits are not modelled). `none` models the `ValueError`. -/
def pyToInt (t : List Char) : Option ℤ :=
  match t with
  | [] => none
  | c :: cs =>
    if c = '-' then (digitsVal cs).map (fun n => -(n : ℤ))
    else if c = '+' then (digitsVal cs).map (fun n => (n : ℤ))
    else (digitsVal (c :: cs)).map (fun n => (n : ℤ))

/-- `load_highscore()`: read the file, `int(contents.strip() or 0)`, and 0
on any failure (missing file, empty file, unparsable contents). -/
def load_highscore (disk : Option String) : ℤ :=
  match disk with
  | none => 0
  | some content =>
    let t := pyStrip content.data
    if t = [] then 0
    else
      match pyToInt t with
      | some n => n
      | none => 0

/-- `save_highscore(score)`: best-effort overwrite of the file with
`str(int(score))`; a failed write (`ok = false`) leaves the file as it was
and is swallowed. -/
def save_highscore (ok : Bool) (disk : Option String) (n : ℤ) : Option String :=
  if ok then some (toString n) else disk

/-- The pipe created by `Game.spawn_pipe`: at `x = WIDTH + 40` with the
random top height and palette color drawn from the environment. -/
def Pipe.spawn (env : Env) : Pipe :=
  ⟨(WIDTH : ℚ) + 40, env.pipeTop, PIPE_GAP, PIPE_WIDTH, env.pipeColor, false⟩

/-- `Game.spawn_pipe`: append the new pipe; with probability
`POWERUP_SPAWN_CHANCE` (decided by `env.puSpawn`) also append one power-up
placed inside the gap. -/
def spawn_pipe (env : Env) (s : GState) : GState :=
  let pipe := Pipe.spawn env
  let s1 := {s with pipes := s.pipes ++ [pipe]}
  if env.puSpawn then
    let px := pipe.x + ((pipe.width / 2 : ℤ) : ℚ) + (env.puOff : ℚ)
    let py := (env.pipeTop : ℚ) + (pipe.gap : ℚ) * env.puFrac
    {s1 with powerups := s1.powerups ++ [⟨px, py, env.puType, POWERUP_RADIUS, false⟩]}
  else s1

/-- Result of the power-up pickup loop in `Game.handle_collisions`. -/
structure PickupOut where
  remaining : List PowerUp
  timers : Timers
  score : ℤ
  particles : List Particle
deriving DecidableEq

/-- The power-up pickup loop of `Game.handle_collisions`: every power-up
intersecting the bird circle is removed, its effect applied, a particle
burst spawned, and `+2` score added for the "score" kind. -/
def pickups (bu : BurstFn) (circ : ℚ × ℚ × ℚ) (bx byy : ℚ) :
    List PowerUp → Timers → ℤ → List Particle → PickupOut
  | [], tm, sc, ps => ⟨[], tm, sc, ps⟩
  | pu :: rest, tm, sc, ps =>
    if pu.collides_with_circle circ then
      pickups bu circ bx byy rest (apply_powerup pu.ptype tm)
        (if pu.ptype = PType.score then sc + 2 else sc)
        (ps ++ bu bx byy (powerup_color pu.ptype) 18)
    else
      let r := pickups bu circ bx byy rest tm sc ps
      ⟨pu :: r.remaining, r.timers, r.score, r.particles⟩

/-- The life-loss reaction shared by the pipe branch (`bounce = -160`,
30 particles) and the ground branch (`bounce = -120`, 18 particles) of
`Game.handle_collisions`: decrement lives, start the invulnerability
window, bounce the bird, spawn damage particles, and on `lives <= 0`
transition to GAME_OVER with the high-score check and best-effort save
(the branch conditions read the decremented lives and the unmodified score
and high score, exactly as the source does). -/
def loseLife (bu : BurstFn) (ok : Bool) (bounce : ℚ) (cnt : ℕ) (s : GState) : GState :=
  let s1 : GState :=
    {s with lives := s.lives - 1,
            invulnerable_timer := INVULNERABILITY_AFTER_HIT,
            bird := {s.bird with vel := bounce},
            particles := s.particles ++ bu s.bird.x s.bird.y (255, 80, 80) cnt}
  if s.lives - 1 ≤ 0 then
    if s.high_score < s.score then
      {s1 with state := Mode.gameOver, high_score := s.score,
               disk := save_highscore ok s.disk s.score}
    else {s1 with state := Mode.gameOver}
  else s1

/-- The power-up pickup block of `Game.handle_collisions` applied to the
game state. -/
def pickupState (bu : BurstFn) (s : GState) : GState :=
  let po := pickups bu s.bird.get_circle s.bird.x s.bird.y s.powerups
    s.powerup_timers s.score s.particles
  {s with powerups := po.remaining, powerup_timers := po.timers,
          score := po.score, particles := po.particles}

/-- The pipe-collision block of `Game.handle_collisions`: only when neither
invulnerable nor shielded, the first pipe (in list order) intersecting the
bird circle costs a life, and the loop breaks. -/
def pipeHitPhase (bu : BurstFn) (ok : Bool) (circ : ℚ × ℚ × ℚ) (s : GState) : GState :=
  if s.invulnerable_timer ≤ 0 ∧ timers_get s.powerup_timers.shield ≤ 0 then
    match s.pipes.find? (fun p => p.collides_with_circle circ) with
    | some _ => loseLife bu ok (-160) 30 s
    | none => s
  else s

/-- The ground-collision block of `Game.handle_collisions`: when the bird's
lower edge reaches the ground line and the bird is neither invulnerable nor
shielded, a life is lost. -/
def groundPhase (bu : BurstFn) (ok : Bool) (s : GState) : GState :=
  if s.bird.y + s.bird.radius ≥ (HEIGHT : ℚ) - 30 then
    if s.invulnerable_timer ≤ 0 ∧ timers_get s.powerup_timers.shield ≤ 0 then
      loseLife bu ok (-120) 18 s
    else s
  else s

/-- `Game.handle_collisions`: power-up pickups, then the first-match pipe
collision, then the ground collision, all against the bird circle taken at
entry (the bird's position is not moved by any of the three blocks). -/
def handle_collisions (env : Env) (s : GState) : GState :=
  groundPhase env.burst env.saveOk
    (pipeHitPhase env.burst env.saveOk s.bird.get_circle (pickupState env.burst s))

/-- The scoring trigger inside the pipe loop of `Game.update`: an unpassed
pipe whose right edge has moved left of the bird's x is marked `passed`
and contributes one score point. -/
def scoreStep (bx : ℚ) (p : Pipe) : Pipe × ℤ :=
  if p.passed = false ∧ p.x + (p.width : ℚ) < bx then
    ({p with passed := true}, 1)
  else (p, 0)

/-- Result of the pipe loop of `Game.update`. -/
structure PipesOut where
  pipes : List Pipe
  score : ℤ
  particles : List Particle
deriving DecidableEq

/-- The pipe loop of `Game.update`: move each pipe, apply the scoring
trigger (with a confetti burst on a score), and cull off-screen pipes. -/
def pipesLoop (bu : BurstFn) (bx byy dt speed : ℚ) :
    List Pipe → ℤ → List Particle → PipesOut
  | [], sc, ps => ⟨[], sc, ps⟩
  | p :: rest, sc, ps =>
    let p1 := p.update dt speed
    let q := scoreStep bx p1
    let sc' := sc + q.2
    let ps' := if q.2 = 0 then ps else ps ++ bu bx byy (180, 255, 200) 8
    let r := pipesLoop bu bx byy dt speed rest sc' ps'
    if q.1.off_screen then r else ⟨q.1 :: r.pipes, r.score, r.particles⟩

/-- The power-up movement and culling loop of `Game.update`. -/
def powerupsPhase (env : Env) (dt speed : ℚ) (s : GState) : GState :=
  let pus := (s.powerups.map (fun pu => pu.update dt speed env.bob)).filter
    (fun pu => !(decide (pu.x < -40)))
  {s with powerups := pus}

/-- The particle update and culling loop of `Game.update`. -/
def particlesPhase (dt : ℚ) (s : GState) : GState :=
  let pts := (s.particles.map (fun pt => pt.update dt)).filter
    (fun pt => !(decide (pt.life ≤ 0)))
  {s with particles := pts}

/-- The invulnerability and power-up timer decrements of `Game.update`. -/
def timersPhase (dt : ℚ) (s : GState) : GState :=
  {s with invulnerable_timer :=
            if 0 < s.invulnerable_timer then s.invulnerable_timer - dt
            else s.invulnerable_timer,
          powerup_timers := s.powerup_timers.dec dt}

/-- The final ceiling clamp of `Game.update`: `y < 20` is reset to 20 with
zero velocity. -/
def ceilingClamp (s : GState) : GState :=
  if s.bird.y < 20 then {s with bird := {s.bird with y := 20, vel := 0}} else s

/-- The code-side difficulty factor computed at the top of the PLAYING
branch of `Game.update`: `1.0 + math.log(1 + max(0, score)) * 0.05`. -/
def code_difficulty (logf : ℚ → ℚ) (score : ℤ) : ℚ :=
  1 + logf ((1 + max 0 score : ℤ) : ℚ) * 0.05

/-- Everything the PLAYING branch of `Game.update` does before
`handle_collisions`: advance the spawn accumulator, compute difficulty,
speed and spawn interval, spawn a pipe when due, integrate the bird,
move/score/cull pipes, move/cull power-ups, update particles, and
decrement the invulnerability and effect timers, in source order. -/
def preCollision (env : Env) (dt : ℚ) (s : GState) : GState :=
  let s0 := {s with time_since_last_pipe := s.time_since_last_pipe + dt}
  let difficulty := code_difficulty env.logf s0.score
  let speed := s0.pipe_speed * difficulty *
      (if 0 < timers_get s0.powerup_timers.slow then 0.6 else 1)
  let spawn_interval := max 1 (s0.pipe_spawn_interval / difficulty)
  let s1 :=
    if s0.time_since_last_pipe ≥ spawn_interval then
      {spawn_pipe env s0 with time_since_last_pipe := 0}
    else s0
  let s2 := {s1 with bird := s1.bird.update dt}
  let po := pipesLoop env.burst s2.bird.x s2.bird.y dt speed s2.pipes s2.score s2.particles
  let s3 := {s2 with pipes := po.pipes, score := po.score, particles := po.particles}
  let s4 := powerupsPhase env dt speed s3
  let s5 := particlesPhase dt s4
  timersPhase dt s5

/-- The PLAYING branch of `Game.update`: the pre-collision pipeline, then
`handle_collisions`, then the ceiling clamp. -/
def playingStep (env : Env) (dt : ℚ) (s : GState) : GState :=
  ceilingClamp (handle_collisions env (preCollision env dt s))

/-- `Game.update(dt)`: in non-PLAYING states only the background clouds
move; in PLAYING the full simulation step runs. -/
def update (env : Env) (dt : ℚ) (s : GState) : GState :=
  if s.state ≠ Mode.playing then
    {s with clouds := s.clouds.map (fun c => c.move dt)}
  else playingStep env dt s

/-- `Game.reset`: fresh session variables; particles, clouds, sound flag,
the in-memory high score and the file are untouched. -/
def reset (s : GState) : GState :=
  {s with bird := Bird.init BIRD_X ((HEIGHT / 2 : ℤ) : ℚ),
          pipes := [],
          powerups := [],
          score := 0,
          lives := START_LIVES,
          invulnerable_timer := 0,
          powerup_timers := ⟨none, none, none⟩,
          pipe_speed := PIPE_SPEED_BASE,
          pipe_spawn_interval := PIPE_SPAWN_INTERVAL,
          time_since_last_pipe := 0,
          state := Mode.menu,
          menu_select := 0}

/-- The keys `Game.handle_input` reacts to. -/
inductive Key where
  | space
  | keyP
  | keyM
  | keyR
  | keyQ
deriving DecidableEq

/-- One KEYDOWN branch of `Game.handle_input`; `none` models `Game.quit`
terminating the process. -/
def handle_key (s : GState) (k : Key) : Option GState :=
  match s.state, k with
  | Mode.menu, Key.space => some {s with state := Mode.playing, time_since_last_pipe := 0}
  | Mode.menu, Key.keyQ => none
  | Mode.playing, Key.space => some {s with bird := s.bird.flap}
  | Mode.playing, Key.keyP => some {s with state := Mode.paused}
  | Mode.playing, Key.keyM => some {s with sound_on := !s.sound_on}
  | Mode.paused, Key.keyP => some {s with state := Mode.playing}
  | Mode.gameOver, Key.keyR => some {reset s with state := Mode.playing}
  | Mode.gameOver, Key.keyQ => none
  | _, _ => some s

/-- Difficulty factor written from the spec's words:
`1 + ln(1 + max(0, score)) * 0.05`, with `logf` standing for `ln`. -/
def spec_difficulty (logf : ℚ → ℚ) (score : ℤ) : ℚ :=
  1 + logf ((1 + max 0 score : ℤ) : ℚ) * 0.05

/-- Pipe speed written from the spec's words:
`BASE_SPEED * difficulty * (0.6 if "slow" effect active else 1.0)`. -/
def spec_pipe_speed (logf : ℚ → ℚ) (score : ℤ) (slowActive : Bool) : ℚ :=
  PIPE_SPEED_BASE * spec_difficulty logf score * (if slowActive then 0.6 else 1)

/-- Spawn interval written from the spec's words:
`max(1.0, BASE_INTERVAL / difficulty)`. -/
def spec_spawn_interval (logf : ℚ → ℚ) (score : ℤ) : ℚ :=
  max 1 (PIPE_SPAWN_INTERVAL / spec_difficulty logf score)

/-- Whether the "slow" effect is active (entry with positive duration). -/
def slow_active (tm : Timers) : Bool :=
  decide (0 < timers_get tm.slow)

/-- A state with its high-score file contents blanked, used to express that
two states agree on everything except the persisted file. -/
def eraseDisk (s : GState) : GState :=
  {s with disk := none}

/-- A neutral tick environment for concrete runs: zero for the logarithm
and the bobbing sine, no random particles, no power-up spawn, writes
succeed. -/
def env0 : Env :=
  ⟨fun _ => 0, fun _ => 0, fun _ _ _ _ => [], 200, (0, 0, 0), false, 0, 0,
   PType.shield, true⟩

/-- The bird of a fresh session, `Bird(BIRD_X, HEIGHT // 2)`. -/
def bird0 : Bird := Bird.init BIRD_X ((HEIGHT / 2 : ℤ) : ℚ)

/-- A fresh PLAYING session state (as produced by `Game.reset` plus the
start intent), with an empty high-score file. -/
def gs0 : GState :=
  ⟨bird0, [], [], [], 0, START_LIVES, 0, ⟨none, none, none⟩, PIPE_SPEED_BASE,
   PIPE_SPAWN_INTERVAL, 0, Mode.playing, 0, 0, true, [], none⟩

/-- A concrete MENU state. -/
def gs0m : GState := {gs0 with state := Mode.menu}

/-- A concrete GAME_OVER state with a nonzero session score. -/
def gsOver : GState := {gs0 with state := Mode.gameOver, score := 5, lives := 0}

/-- A concrete PLAYING state holding an active shield with half a second
remaining. -/
def gsShield : GState := {gs0 with powerup_timers := ⟨some (1/2), none, none⟩}

/-- A concrete unpassed pipe left of the bird, for scoring checks. -/
def pipe0 : Pipe := ⟨0, 200, PIPE_GAP, PIPE_WIDTH, (0, 0, 0), false⟩

/-- A concrete PLAYING state one ground hit away from GAME_OVER, with a
synced persisted high score of 2 and a session score of 5. -/
def gsDead : GState :=
  {gs0 with lives := 1, score := 5, high_score := 2, disk := some "2"}

end BirdGame

namespace BirdGame

section Verification

attribute [local semireducible] Rat.mul Rat.add Rat.sub Rat.inv Rat.ofScientific

/-- C5: `Bird.flap` unconditionally sets the vertical velocity to
`JUMP_VELOCITY = -380`, and `Bird.update dt` computes
`vel' = clamp (vel + GRAVITY * dt) (-1000) MAX_FALL_SPEED` followed by
`y' = y + vel' * dt`; in particular a flap followed by one `dt = 0.1` tick
leaves the velocity at exactly `-280`. -/
theorem c5_flap_and_integrate :
    (∀ b : Bird, (Bird.flap b).vel = JUMP_VELOCITY ∧ JUMP_VELOCITY = -380) ∧
    (∀ (b : Bird) (dt : ℚ),
        (b.update dt).vel = clamp (b.vel + GRAVITY * dt) (-1000) MAX_FALL_SPEED ∧
        (b.update dt).y = b.y + (b.update dt).vel * dt) ∧
    (∀ b : Bird, ((Bird.flap b).update 0.1).vel = -280) := by
  refine ⟨fun b => ⟨rfl, rfl⟩, fun b dt => ⟨rfl, rfl⟩, fun b => ?_⟩
  show clamp (JUMP_VELOCITY + GRAVITY * 0.1) (-1000) MAX_FALL_SPEED = -280
  decide

/-- C4: the scoring trigger of `Game.update` flips `passed` from `false` to
`true` exactly when the pipe's right edge `x + width` is left of the bird's
x, contributing exactly one score point at that flip; a pipe whose `passed`
flag is already `true` is left unchanged and contributes nothing, then and
on every later check, and pipe movement never alters `passed` (so the flip
happens at most once along any run). -/
theorem c4_pipe_scored_once :
    ∀ (bx : ℚ) (p : Pipe),
      ((scoreStep bx p).1.passed = (p.passed || decide (p.x + (p.width : ℚ) < bx))) ∧
      (p.passed = true → scoreStep bx p = (p, 0)) ∧
      (p.passed = false →
        ((scoreStep bx p).2 = 1 ↔ p.x + (p.width : ℚ) < bx) ∧
        ((scoreStep bx p).1.passed = true ↔ p.x + (p.width : ℚ) < bx) ∧
        (¬ p.x + (p.width : ℚ) < bx → scoreStep bx p = (p, 0))) ∧
      ((scoreStep bx p).1.passed = true →
        ∀ bx' : ℚ, scoreStep bx' (scoreStep bx p).1 = ((scoreStep bx p).1, 0)) ∧
      (∀ dt speed : ℚ, (p.update dt speed).passed = p.passed) := by
  intro bx p
  by_cases hp : p.passed <;> by_cases hx : p.x + (p.width : ℚ) < bx <;>
    simp [scoreStep, Pipe.update, hp, hx]

/-- C4 witness: a concrete pipe at `x = 0` with `passed = false` is scored
(one point, flag set), and a second check of the resulting pipe changes
nothing and contributes nothing. -/
theorem c4_witness :
    (scoreStep BIRD_X pipe0).2 = 1 ∧
    scoreStep BIRD_X (scoreStep BIRD_X pipe0).1 = ((scoreStep BIRD_X pipe0).1, 0) := by
  have h := c4_pipe_scored_once BIRD_X pipe0
  exact ⟨(h.2.2.1 (by decide)).1.mpr (by decide), h.2.2.2.1 (by decide) BIRD_X⟩

/-- C7: a tick taken in any state other than PLAYING leaves every piece of
gameplay state unchanged: bird, pipes, power-ups, score, lives, the
invulnerability timer, the active-effect durations and the state enum. -/
theorem c7_non_playing_freeze :
    ∀ (env : Env) (dt : ℚ) (s : GState), s.state ≠ Mode.playing →
      (update env dt s).bird = s.bird ∧
      (update env dt s).pipes = s.pipes ∧
      (update env dt s).powerups = s.powerups ∧
      (update env dt s).score = s.score ∧
      (update env dt s).lives = s.lives ∧
      (update env dt s).invulnerable_timer = s.invulnerable_timer ∧
      (update env dt s).powerup_timers = s.powerup_timers ∧
      (update env dt s).state = s.state := by
  intro env dt s h
  simp [update, h]

/-- C7 witness: a concrete MENU-state tick freezes all gameplay fields. -/
theorem c7_witness :
    gs0m.state ≠ Mode.playing ∧
    ((update env0 1 gs0m).bird = gs0m.bird ∧
     (update env0 1 gs0m).pipes = gs0m.pipes ∧
     (update env0 1 gs0m).powerups = gs0m.powerups ∧
     (update env0 1 gs0m).score = gs0m.score ∧
     (update env0 1 gs0m).lives = gs0m.lives ∧
     (update env0 1 gs0m).invulnerable_timer = gs0m.invulnerable_timer ∧
     (update env0 1 gs0m).powerup_timers = gs0m.powerup_timers ∧
     (update env0 1 gs0m).state = gs0m.state) :=
  ⟨by decide, c7_non_playing_freeze env0 1 gs0m (by decide)⟩

/-- C8: pressing restart in GAME_OVER yields PLAYING with score 0, lives
`START_LIVES`, empty pipe and power-up lists, zero invulnerability timer,
an empty active-effects mapping and a reset spawn accumulator, while the
in-memory high score is kept. -/
theorem c8_restart_reset :
    ∀ s : GState, s.state = Mode.gameOver →
      ∃ s' : GState, handle_key s Key.keyR = some s' ∧
        s'.state = Mode.playing ∧ s'.score = 0 ∧ s'.lives = START_LIVES ∧
        s'.pipes = [] ∧ s'.powerups = [] ∧ s'.invulnerable_timer = 0 ∧
        s'.powerup_timers = ⟨none, none, none⟩ ∧ s'.time_since_last_pipe = 0 ∧
        s'.high_score = s.high_score := by
  intro s h
  refine ⟨{reset s with state := Mode.playing}, ?_, ?_⟩
  · simp [handle_key, h]
  · simp [reset]

/-- C8 witness: restarting a concrete GAME_OVER state. -/
theorem c8_witness :
    gsOver.state = Mode.gameOver ∧
    (∃ s' : GState, handle_key gsOver Key.keyR = some s' ∧
      s'.state = Mode.playing ∧ s'.score = 0 ∧ s'.lives = START_LIVES ∧
      s'.pipes = [] ∧ s'.powerups = [] ∧ s'.invulnerable_timer = 0 ∧
      s'.powerup_timers = ⟨none, none, none⟩ ∧ s'.time_since_last_pipe = 0 ∧
      s'.high_score = gsOver.high_score) :=
  ⟨rfl, c8_restart_reset gsOver rfl⟩

/-- The ceiling clamp only touches the bird. -/
theorem ceilingClamp_proj (s : GState) :
    (ceilingClamp s).pipes = s.pipes ∧
    (ceilingClamp s).score = s.score ∧
    (ceilingClamp s).lives = s.lives ∧
    (ceilingClamp s).invulnerable_timer = s.invulnerable_timer ∧
    (ceilingClamp s).state = s.state ∧
    (ceilingClamp s).high_score = s.high_score ∧
    (ceilingClamp s).disk = s.disk ∧
    (ceilingClamp s).time_since_last_pipe = s.time_since_last_pipe := by
  unfold ceilingClamp
  split_ifs <;> exact ⟨rfl, rfl, rfl, rfl, rfl, rfl, rfl, rfl⟩

/-- Losing a life decrements `lives` by exactly one, restarts the
invulnerability window, and leaves score, pipes and the spawn accumulator
alone. -/
theorem loseLife_proj (bu : BurstFn) (ok : Bool) (v : ℚ) (c : ℕ) (s : GState) :
    (loseLife bu ok v c s).lives = s.lives - 1 ∧
    (loseLife bu ok v c s).invulnerable_timer = INVULNERABILITY_AFTER_HIT ∧
    (loseLife bu ok v c s).score = s.score ∧
    (loseLife bu ok v c s).pipes = s.pipes ∧
    (loseLife bu ok v c s).time_since_last_pipe = s.time_since_last_pipe := by
  simp only [loseLife]
  split_ifs <;> exact ⟨rfl, rfl, rfl, rfl, rfl⟩

/-- The pipe-collision block either does nothing or is one `loseLife`. -/
theorem pipeHitPhase_eq (bu : BurstFn) (ok : Bool) (circ : ℚ × ℚ × ℚ) (s : GState) :
    pipeHitPhase bu ok circ s = s ∨
    pipeHitPhase bu ok circ s = loseLife bu ok (-160) 30 s := by
  unfold pipeHitPhase
  split_ifs with h
  · cases hf : s.pipes.find? (fun p => p.collides_with_circle circ) with
    | none => left; rfl
    | some p => right; rfl
  · left; rfl

/-- The ground-collision block either does nothing or is one `loseLife`. -/
theorem groundPhase_eq (bu : BurstFn) (ok : Bool) (s : GState) :
    groundPhase bu ok s = s ∨
    groundPhase bu ok s = loseLife bu ok (-120) 18 s := by
  unfold groundPhase
  split_ifs <;> first | left; rfl | right; rfl

/-- A positive invulnerability timer blocks the ground-collision block. -/
theorem groundPhase_invuln_pos (bu : BurstFn) (ok : Bool) (s : GState)
    (h : 0 < s.invulnerable_timer) : groundPhase bu ok s = s := by
  unfold groundPhase
  split_ifs with h1 h2
  · exact absurd h2.1 (not_le.mpr h)
  · rfl
  · rfl

/-- An active shield blocks the pipe-collision block. -/
theorem pipeHitPhase_shield (bu : BurstFn) (ok : Bool) (circ : ℚ × ℚ × ℚ)
    (s : GState) (h : 0 < timers_get s.powerup_timers.shield) :
    pipeHitPhase bu ok circ s = s := by
  unfold pipeHitPhase
  rw [if_neg]
  intro hc
  exact absurd hc.2 (not_le.mpr h)

/-- An active shield blocks the ground-collision block. -/
theorem groundPhase_shield (bu : BurstFn) (ok : Bool) (s : GState)
    (h : 0 < timers_get s.powerup_timers.shield) :
    groundPhase bu ok s = s := by
  unfold groundPhase
  split_ifs with h1 h2
  · exact absurd h2.2 (not_le.mpr h)
  · rfl
  · rfl

/-- Applying a power-up never deactivates an active shield. -/
theorem apply_powerup_shield_pos (t : PType) (tm : Timers)
    (h : 0 < timers_get tm.shield) :
    0 < timers_get (apply_powerup t tm).shield := by
  cases t <;> simp [apply_powerup, timers_get, POWERUP_DURATION] at h ⊢ <;> exact h

/-- The pickup loop never deactivates an active shield. -/
theorem pickups_shield_pos (bu : BurstFn) (circ : ℚ × ℚ × ℚ) (bx byy : ℚ) :
    ∀ (l : List PowerUp) (tm : Timers) (sc : ℤ) (ps : List Particle),
      0 < timers_get tm.shield →
      0 < timers_get (pickups bu circ bx byy l tm sc ps).timers.shield := by
  intro l
  induction l with
  | nil => intro tm sc ps h; exact h
  | cons pu rest ih =>
    intro tm sc ps h
    by_cases hc : pu.collides_with_circle circ
    · simp only [pickups, hc, if_true]
      exact ih _ _ _ (apply_powerup_shield_pos pu.ptype tm h)
    · simp only [pickups, hc, if_false]
      exact ih _ _ _ h

/-- `handle_collisions` never touches the pipe list or the spawn
accumulator. -/
theorem handle_collisions_pipes_acc (env : Env) (s : GState) :
    (handle_collisions env s).pipes = s.pipes ∧
    (handle_collisions env s).time_since_last_pipe = s.time_since_last_pipe := by
  unfold handle_collisions
  rcases pipeHitPhase_eq env.burst env.saveOk s.bird.get_circle (pickupState env.burst s) with
    h2 | h2 <;>
  rw [h2] <;>
  rcases groundPhase_eq env.burst env.saveOk _ with h3 | h3 <;>
  rw [h3] <;>
  simp [loseLife_proj, pickupState]

/-- Per-tick life accounting in `handle_collisions`: lives drop by at most
one, and any drop restarts the invulnerability window. -/
theorem hc_lives_cases (env : Env) (s : GState) :
    (handle_collisions env s).lives = s.lives ∨
    ((handle_collisions env s).lives = s.lives - 1 ∧
     (handle_collisions env s).invulnerable_timer = INVULNERABILITY_AFTER_HIT) := by
  unfold handle_collisions
  have hl1 : (pickupState env.burst s).lives = s.lives := rfl
  rcases pipeHitPhase_eq env.burst env.saveOk s.bird.get_circle (pickupState env.burst s) with
    h2 | h2
  · rw [h2]
    rcases groundPhase_eq env.burst env.saveOk (pickupState env.burst s) with h3 | h3
    · rw [h3]; left; exact hl1
    · rw [h3]; right
      exact ⟨(loseLife_proj _ _ _ _ _).1.trans (by rw [hl1]),
             (loseLife_proj _ _ _ _ _).2.1⟩
  · rw [h2]
    have hinv := (loseLife_proj env.burst env.saveOk (-160) 30 (pickupState env.burst s)).2.1
    rw [groundPhase_invuln_pos _ _ _ (by rw [hinv]; norm_num [INVULNERABILITY_AFTER_HIT])]
    right
    exact ⟨(loseLife_proj _ _ _ _ _).1.trans (by rw [hl1]), hinv⟩

/-- An active shield at the entry of `handle_collisions` keeps lives
unchanged. -/
theorem hc_lives_shield (env : Env) (s : GState)
    (h : 0 < timers_get s.powerup_timers.shield) :
    (handle_collisions env s).lives = s.lives := by
  unfold handle_collisions
  have hpk : 0 < timers_get (pickupState env.burst s).powerup_timers.shield :=
    pickups_shield_pos env.burst s.bird.get_circle s.bird.x s.bird.y
      s.powerups s.powerup_timers s.score s.particles h
  rw [pipeHitPhase_shield _ _ _ _ hpk, groundPhase_shield _ _ _ hpk]
  rfl

/-- The pre-collision pipeline never touches lives, the state enum, the
in-memory high score or the high-score file. -/
theorem preCollision_proj (env : Env) (dt : ℚ) (s : GState) :
    (preCollision env dt s).lives = s.lives ∧
    (preCollision env dt s).state = s.state ∧
    (preCollision env dt s).high_score = s.high_score ∧
    (preCollision env dt s).disk = s.disk := by
  simp only [preCollision, timersPhase, particlesPhase, powerupsPhase, spawn_pipe]
  split_ifs <;> exact ⟨rfl, rfl, rfl, rfl⟩

/-- The pre-collision pipeline decrements every effect timer by `dt`
(dropping expired entries) and does nothing else to them. -/
theorem preCollision_timers (env : Env) (dt : ℚ) (s : GState) :
    (preCollision env dt s).powerup_timers = s.powerup_timers.dec dt := by
  simp only [preCollision, timersPhase, particlesPhase, powerupsPhase, spawn_pipe]
  split_ifs <;> rfl

/-- The spawn accumulator after the pre-collision pipeline: advanced by the
raw `dt` and reset to zero exactly when it reached the spawn interval. -/
theorem preCollision_acc (env : Env) (dt : ℚ) (s : GState) :
    (preCollision env dt s).time_since_last_pipe =
      if s.time_since_last_pipe + dt ≥
          max 1 (s.pipe_spawn_interval / code_difficulty env.logf s.score) then 0
      else s.time_since_last_pipe + dt := by
  simp only [preCollision, timersPhase, particlesPhase, powerupsPhase, spawn_pipe]
  split_ifs <;> rfl

/-- C10: in any single tick, lives drop by at most one — the pipe loop
breaks after the first hit and starts the invulnerability window
(`INVULNERABILITY_AFTER_HIT = 1.6 > 0`), which also blocks the ground check
of the same tick; any life loss leaves the timer at that value. -/
theorem c10_at_most_one_life_per_tick :
    ∀ (env : Env) (dt : ℚ) (s : GState),
      (s.lives - 1 ≤ (update env dt s).lives ∧ (update env dt s).lives ≤ s.lives) ∧
      ((update env dt s).lives < s.lives →
        (update env dt s).invulnerable_timer = INVULNERABILITY_AFTER_HIT) := by
  intro env dt s
  by_cases h : s.state = Mode.playing
  · have hu : update env dt s = playingStep env dt s := by simp [update, h]
    rw [hu, playingStep]
    have hcl := ceilingClamp_proj (handle_collisions env (preCollision env dt s))
    rw [hcl.2.2.1]
    have hpre := (preCollision_proj env dt s).1
    rcases hc_lives_cases env (preCollision env dt s) with h1 | ⟨h1, h2⟩
    · rw [h1, hpre]
      exact ⟨⟨by omega, le_refl _⟩, fun hlt => absurd hlt (lt_irrefl _)⟩
    · rw [h1, hpre]
      refine ⟨⟨le_refl _, by omega⟩, fun _ => ?_⟩
      rw [hcl.2.2.2.1, h2]
  · have h1 : (update env dt s).lives = s.lives := by simp [update, h]
    rw [h1]
    exact ⟨⟨by omega, le_refl _⟩, fun hlt => absurd hlt (lt_irrefl _)⟩

/-- C10 witness: one tick of a fresh session state drops at most one life
(here none), and the bounds hold concretely. -/
theorem c10_witness :
    (gs0.lives - 1 ≤ (update env0 1 gs0).lives ∧ (update env0 1 gs0).lives ≤ gs0.lives) ∧
    ((update env0 1 gs0).lives < gs0.lives →
      (update env0 1 gs0).invulnerable_timer = INVULNERABILITY_AFTER_HIT) :=
  c10_at_most_one_life_per_tick env0 1 gs0

/-- C2 counterexample: a tick entered with an active shield (duration 1/2,
so positive) but `dt = 1` still loses a life, because the timer decrement
runs before `handle_collisions` and removes the shield within the tick. -/
theorem c2_counterexample :
    0 < timers_get gsShield.powerup_timers.shield ∧
    (update env0 1 gsShield).lives < gsShield.lives := by
  exact ⟨by decide, by decide⟩

/-- C2 (amended): if the shield entry's remaining duration strictly exceeds
`dt` — so the shield is still active when the collision resolver runs after
the per-tick timer decrement — then neither pipe nor ground collisions can
change lives during that tick. -/
theorem c2_amended_shield_outlasts_dt :
    ∀ (env : Env) (dt : ℚ) (s : GState) (t : ℚ),
      s.powerup_timers.shield = some t → dt < t →
      (update env dt s).lives = s.lives := by
  intro env dt s t hsh hdt
  by_cases h : s.state = Mode.playing
  · have hu : update env dt s = playingStep env dt s := by simp [update, h]
    rw [hu, playingStep, (ceilingClamp_proj _).2.2.1]
    have hpos : 0 < timers_get (preCollision env dt s).powerup_timers.shield := by
      rw [preCollision_timers]
      show 0 < timers_get (dec_entry dt s.powerup_timers.shield)
      rw [hsh]
      simp only [dec_entry]
      rw [if_neg (by linarith)]
      show (0 : ℚ) < t - dt
      linarith
    rw [hc_lives_shield env _ hpos]
    exact (preCollision_proj env dt s).1
  · simp [update, h]

/-- C2 witness: a shield with half a second left survives a quarter-second
tick, and lives are untouched. -/
theorem c2_witness :
    gsShield.powerup_timers.shield = some (1 / 2) ∧ (1 / 4 : ℚ) < 1 / 2 ∧
    (update env0 (1 / 4) gsShield).lives = gsShield.lives :=
  ⟨rfl, by decide, c2_amended_shield_outlasts_dt env0 (1 / 4) gsShield (1 / 2) rfl (by decide)⟩

/-- C1 counterexample: `Game.update` performs no validation of `dt`; a tick
with `dt = -1` on a fresh PLAYING state yields a different session state
than a tick with `dt = 0` (the bird is dragged into the ground and a life
is lost), so negative `dt` is neither clamped to 0 nor rejected. -/
theorem c1_counterexample : update env0 (-1) gs0 ≠ update env0 0 gs0 := by
  decide

/-- C1 (amended): the tick applies `dt` exactly as given — the spawn
accumulator advances by the raw `dt`, even when negative — and the tick is
a total function (it cannot crash); the actual entry point `Game.run` only
ever supplies `dt = clock_milliseconds / 1000 ≥ 0`. -/
theorem c1_amended_dt_unclamped :
    (∀ (env : Env) (dt : ℚ) (s : GState),
        s.state = Mode.playing →
        s.time_since_last_pipe + dt <
          max 1 (s.pipe_spawn_interval / code_difficulty env.logf s.score) →
        (update env dt s).time_since_last_pipe = s.time_since_last_pipe + dt) ∧
    (∀ ms : ℕ, 0 ≤ (ms : ℚ) / 1000) := by
  refine ⟨fun env dt s h hlt => ?_, fun ms => by positivity⟩
  have hu : update env dt s = playingStep env dt s := by simp [update, h]
  rw [hu, playingStep, (ceilingClamp_proj _).2.2.2.2.2.2.2,
      (handle_collisions_pipes_acc env _).2, preCollision_acc]
  rw [if_neg (not_le.mpr hlt)]

/-- C1 witness: a concrete negative-dt tick advances the accumulator by
that raw negative amount, and the driver's dt is non-negative. -/
theorem c1_witness :
    gs0.state = Mode.playing ∧
    gs0.time_since_last_pipe + (-1 : ℚ) <
      max 1 (gs0.pipe_spawn_interval / code_difficulty env0.logf gs0.score) ∧
    (update env0 (-1) gs0).time_since_last_pipe = gs0.time_since_last_pipe + (-1) ∧
    0 ≤ ((500 : ℕ) : ℚ) / 1000 :=
  ⟨rfl, by decide, c1_amended_dt_unclamped.1 env0 (-1) gs0 rfl (by decide),
   c1_amended_dt_unclamped.2 500⟩

/-- When a `loseLife` reaches GAME_OVER from a PLAYING state whose file is
in sync with the in-memory high score and the write succeeds, the file
afterwards holds `max(previous high score, final score)` and the in-memory
high score has not decreased. -/
theorem loseLife_gameOver_spec (bu : BurstFn) (ok : Bool) (v : ℚ) (c : ℕ) (s : GState)
    (hok : ok = true) (hd : s.disk = some (toString s.high_score))
    (hp : s.state = Mode.playing)
    (hg : (loseLife bu ok v c s).state = Mode.gameOver) :
    (loseLife bu ok v c s).disk =
      some (toString (max s.high_score (loseLife bu ok v c s).score)) ∧
    s.high_score ≤ (loseLife bu ok v c s).high_score := by
  simp only [loseLife] at hg ⊢
  split_ifs at hg ⊢ with h1 h2
  · subst hok
    refine ⟨?_, le_of_lt h2⟩
    show save_highscore true s.disk s.score = some (toString (max s.high_score s.score))
    rw [max_eq_right (le_of_lt h2)]
    rfl
  · refine ⟨?_, le_refl _⟩
    show s.disk = some (toString (max s.high_score s.score))
    rw [hd, max_eq_left (not_lt.mp h2)]
  · have h' : s.state = Mode.gameOver := hg
    exact absurd (hp.symm.trans h') (by decide)

/-- When `handle_collisions` reaches GAME_OVER from a synced PLAYING state
and the write succeeds, the file afterwards holds
`max(previous high score, final score)` and the in-memory high score has
not decreased. -/
theorem hc_gameOver (env : Env) (s : GState)
    (hok : env.saveOk = true) (hd : s.disk = some (toString s.high_score))
    (hp : s.state = Mode.playing)
    (hg : (handle_collisions env s).state = Mode.gameOver) :
    (handle_collisions env s).disk =
      some (toString (max s.high_score (handle_collisions env s).score)) ∧
    s.high_score ≤ (handle_collisions env s).high_score := by
  unfold handle_collisions at hg ⊢
  have hd1 : (pickupState env.burst s).disk =
      some (toString (pickupState env.burst s).high_score) := hd
  have hp1 : (pickupState env.burst s).state = Mode.playing := hp
  rcases pipeHitPhase_eq env.burst env.saveOk s.bird.get_circle (pickupState env.burst s) with
    h2 | h2
  · rw [h2] at hg ⊢
    rcases groundPhase_eq env.burst env.saveOk (pickupState env.burst s) with h3 | h3
    · rw [h3] at hg
      exact absurd (hp1.symm.trans hg) (by decide)
    · rw [h3] at hg ⊢
      exact loseLife_gameOver_spec _ _ _ _ _ hok hd1 hp1 hg
  · rw [h2] at hg ⊢
    have hinv := (loseLife_proj env.burst env.saveOk (-160) 30 (pickupState env.burst s)).2.1
    rw [groundPhase_invuln_pos _ _ _
      (by rw [hinv]; norm_num [INVULNERABILITY_AFTER_HIT])] at hg ⊢
    exact loseLife_gameOver_spec _ _ _ _ _ hok hd1 hp1 hg

/-- C3: when a tick drops lives to zero and moves a PLAYING session to
GAME_OVER (with the file in sync with the in-memory high score and the
best-effort write succeeding), the persisted high score afterwards is
exactly `max(previous persisted high score, final session score)`; in
particular the in-memory high score never decreases. -/
theorem c3_highscore_persisted_max :
    ∀ (env : Env) (dt : ℚ) (s : GState),
      env.saveOk = true →
      s.disk = some (toString s.high_score) →
      s.state = Mode.playing →
      (update env dt s).state = Mode.gameOver →
      (update env dt s).disk =
        some (toString (max s.high_score (update env dt s).score)) ∧
      s.high_score ≤ (update env dt s).high_score := by
  intro env dt s hok hd hp hg
  have hu : update env dt s = playingStep env dt s := by simp [update, hp]
  rw [hu, playingStep] at hg ⊢
  have hcl := ceilingClamp_proj (handle_collisions env (preCollision env dt s))
  rw [hcl.2.2.2.2.1] at hg
  rw [hcl.2.2.2.2.2.2.1, hcl.2.1, hcl.2.2.2.2.2.1]
  have hpre := preCollision_proj env dt s
  have hdP : (preCollision env dt s).disk =
      some (toString (preCollision env dt s).high_score) := by
    rw [hpre.2.2.2, hpre.2.2.1]; exact hd
  have hpP : (preCollision env dt s).state = Mode.playing := by
    rw [hpre.2.1]; exact hp
  have hmain := hc_gameOver env (preCollision env dt s) hok hdP hpP hg
  rw [hpre.2.2.1] at hmain
  exact hmain

/-- C3 witness: a concrete terminal tick (one life left, ground hit,
session score 5 versus persisted high score 2) persists "5". -/
theorem c3_witness :
    env0.saveOk = true ∧ gsDead.disk = some (toString gsDead.high_score) ∧
    gsDead.state = Mode.playing ∧ (update env0 1 gsDead).state = Mode.gameOver ∧
    ((update env0 1 gsDead).disk =
      some (toString (max gsDead.high_score (update env0 1 gsDead).score)) ∧
     gsDead.high_score ≤ (update env0 1 gsDead).high_score) :=
  ⟨rfl, by decide, rfl, by decide,
   c3_highscore_persisted_max env0 1 gsDead rfl (by decide) rfl (by decide)⟩

/-- The pipe list produced by the pre-collision pipeline: the pipe loop run
at the code's speed over the (possibly spawn-extended) pipe list. -/
theorem preCollision_pipes (env : Env) (dt : ℚ) (s : GState) :
    (preCollision env dt s).pipes =
      (pipesLoop env.burst s.bird.x (s.bird.update dt).y dt
        (s.pipe_speed * code_difficulty env.logf s.score *
          (if 0 < timers_get s.powerup_timers.slow then 0.6 else 1))
        (if s.time_since_last_pipe + dt ≥
            max 1 (s.pipe_spawn_interval / code_difficulty env.logf s.score) then
          s.pipes ++ [Pipe.spawn env]
        else s.pipes)
        s.score s.particles).pipes := by
  simp only [preCollision, timersPhase, particlesPhase, powerupsPhase, spawn_pipe]
  split_ifs <;> rfl

/-- C6: on every PLAYING tick (with the session's base speed and interval
at their constant values, which `Game.reset` establishes and nothing ever
changes), the difficulty factor is `1 + ln(1 + max(0, score)) * 0.05`, the
pipe speed is `BASE_SPEED * difficulty * (0.6 if "slow" active else 1.0)`,
and a pipe is spawned exactly when the advanced spawn accumulator reaches
`max(1.0, BASE_INTERVAL / difficulty)`, after which the accumulator is
reset to 0. -/
theorem c6_difficulty_speed_spawn :
    ∀ (env : Env) (dt : ℚ) (s : GState),
      s.state = Mode.playing →
      s.pipe_speed = PIPE_SPEED_BASE →
      s.pipe_spawn_interval = PIPE_SPAWN_INTERVAL →
      code_difficulty env.logf s.score = spec_difficulty env.logf s.score ∧
      ((update env dt s).time_since_last_pipe =
        if spec_spawn_interval env.logf s.score ≤ s.time_since_last_pipe + dt then 0
        else s.time_since_last_pipe + dt) ∧
      ((update env dt s).pipes =
        (pipesLoop env.burst s.bird.x (s.bird.update dt).y dt
          (spec_pipe_speed env.logf s.score (slow_active s.powerup_timers))
          (if spec_spawn_interval env.logf s.score ≤ s.time_since_last_pipe + dt then
            s.pipes ++ [Pipe.spawn env]
          else s.pipes)
          s.score s.particles).pipes) := by
  intro env dt s hst hsp hsi
  have hu : update env dt s = playingStep env dt s := by simp [update, hst]
  have hint : spec_spawn_interval env.logf s.score =
      max 1 (s.pipe_spawn_interval / code_difficulty env.logf s.score) := by
    rw [hsi]; rfl
  have hspd : spec_pipe_speed env.logf s.score (slow_active s.powerup_timers) =
      s.pipe_speed * code_difficulty env.logf s.score *
        (if 0 < timers_get s.powerup_timers.slow then 0.6 else 1) := by
    rw [hsp]
    simp only [spec_pipe_speed, spec_difficulty, code_difficulty, slow_active,
      decide_eq_true_eq]
  refine ⟨rfl, ?_, ?_⟩
  · rw [hu, playingStep, (ceilingClamp_proj _).2.2.2.2.2.2.2,
        (handle_collisions_pipes_acc env _).2, preCollision_acc, hint]
  · rw [hu, playingStep, (ceilingClamp_proj _).1,
        (handle_collisions_pipes_acc env _).1, preCollision_pipes, hint, hspd]

/-- C6 witness: the spawn accumulator of a concrete PLAYING tick follows
the spec's `max(1.0, BASE_INTERVAL / difficulty)` schedule. -/
theorem c6_witness :
    (update env0 1 gs0).time_since_last_pipe =
      if spec_spawn_interval env0.logf gs0.score ≤ gs0.time_since_last_pipe + 1 then 0
      else gs0.time_since_last_pipe + 1 :=
  (c6_difficulty_speed_spawn env0 1 gs0 rfl rfl rfl).2.1

/-- Two states equal up to the high-score file stay so after `loseLife`,
whatever the two write outcomes are. -/
theorem eed_loseLife (bu : BurstFn) (b b' : Bool) (v : ℚ) (c : ℕ) (s t : GState)
    (h : eraseDisk s = eraseDisk t) :
    eraseDisk (loseLife bu b v c s) = eraseDisk (loseLife bu b' v c t) := by
  obtain ⟨b1, p1, pu1, pa1, sc1, l1, iv1, tm1, ps1, si1, ts1, st1, ms1, hs1, so1, cl1, d1⟩ := s
  obtain ⟨b2, p2, pu2, pa2, sc2, l2, iv2, tm2, ps2, si2, ts2, st2, ms2, hs2, so2, cl2, d2⟩ := t
  simp only [eraseDisk, GState.mk.injEq, and_true] at h
  obtain ⟨e1, e2, e3, e4, e5, e6, e7, e8, e9, e10, e11, e12, e13, e14, e15, e16⟩ := h
  subst_vars
  simp only [loseLife]
  split_ifs <;> simp [eraseDisk]

/-- The pipe-collision block preserves equality up to the file, whatever
the write outcome. -/
theorem eed_pipeHit (bu : BurstFn) (b b' : Bool) (circ : ℚ × ℚ × ℚ) (s : GState) :
    eraseDisk (pipeHitPhase bu b circ s) = eraseDisk (pipeHitPhase bu b' circ s) := by
  unfold pipeHitPhase
  split_ifs with h
  · cases hf : s.pipes.find? (fun p => p.collides_with_circle circ) with
    | none => rfl
    | some p => exact eed_loseLife bu b b' _ _ s s rfl
  · rfl

/-- The ground-collision block preserves equality up to the file, whatever
the write outcome. -/
theorem eed_ground (bu : BurstFn) (b b' : Bool) (s t : GState)
    (h : eraseDisk s = eraseDisk t) :
    eraseDisk (groundPhase bu b s) = eraseDisk (groundPhase bu b' t) := by
  have hb : s.bird = t.bird := by
    have h' := congrArg GState.bird h; exact h'
  have hiv : s.invulnerable_timer = t.invulnerable_timer := by
    have h' := congrArg GState.invulnerable_timer h; exact h'
  have htm : s.powerup_timers = t.powerup_timers := by
    have h' := congrArg GState.powerup_timers h; exact h'
  unfold groundPhase
  rw [hb, hiv, htm]
  split_ifs <;> first
    | exact eed_loseLife bu b b' _ _ s t h
    | exact h

/-- C9: `load_highscore` returns 0 on a missing file and on contents that
do not parse as an integer, and returns the stored integer otherwise (it is
a total function, so it cannot raise); `save_highscore` is total as well,
a failed write leaves the file unchanged, and the in-memory state produced
by the collision resolver — the only caller of `save_highscore` — is
identical whether the write succeeds or fails. -/
theorem c9_persistence_contract :
    load_highscore none = 0 ∧
    (∀ c : String, pyToInt (pyStrip c.data) = none → load_highscore (some c) = 0) ∧
    (∀ (c : String) (n : ℤ), pyToInt (pyStrip c.data) = some n →
      load_highscore (some c) = n) ∧
    (∀ (d : Option String) (n : ℤ), save_highscore false d n = d) ∧
    (∀ (e : Env) (s : GState),
        eraseDisk (handle_collisions {e with saveOk := false} s) =
        eraseDisk (handle_collisions {e with saveOk := true} s)) := by
  refine ⟨rfl, ?_, ?_, fun d n => rfl, ?_⟩
  · intro c hnone
    simp only [load_highscore]
    split_ifs with he
    · rfl
    · rw [hnone]
  · intro c n hsome
    simp only [load_highscore]
    split_ifs with he
    · rw [he] at hsome
      simp [pyToInt] at hsome
    · rw [hsome]
  · intro e s
    unfold handle_collisions
    exact eed_ground e.burst false true _ _ (eed_pipeHit e.burst false true _ _)

/-- C9 witness: concrete corrupt, valid and failed-write cases. -/
theorem c9_witness :
    load_highscore (some "abc") = 0 ∧ load_highscore (some " 42 ") = 42 ∧
    save_highscore false (some "7") 99 = some "7" :=
  ⟨c9_persistence_contract.2.1 "abc" (by decide),
   c9_persistence_contract.2.2.1 " 42 " 42 (by decide),
   c9_persistence_contract.2.2.2.1 (some "7") 99⟩

end Verification

end BirdGame
